/-
Verification of the ColonyScanalyser repository sources.

Shallow embedding of:
  - src/src/colonyscanalyser/plate.py : PlateCollection.coordinate_to_index,
    PlateCollection.index_to_coordinate, PlateCollection.__is_valid_shape
  - src/scanlag/colony.py : Colony and its metric methods, timepoints_from_image
  - src/colonyscanalyser/colonyscanalyser.py : the colony filter pipeline in main

Python runtime behaviour (exceptions, dict insertion order, object aliasing)
is made explicit: fallible operations return Except PyErr, mutation of shared
objects is modelled by explicit heap passing.
-/
import Mathlib

namespace Scanalyser

/-- Python exceptions raised by the embedded code, with their messages. -/
inductive PyErr where
  | valueError : String → PyErr
  | typeError : String → PyErr
  | attributeError : String → PyErr
  | zeroDivisionError : PyErr
  | indexError : String → PyErr
  | keyError : PyErr
deriving DecidableEq, Repr

/-- A Python numeric value as far as the lattice functions inspect it:
either an int or a non-int number (a float). `isinstance(val, int)` and
truthiness are the only operations the source applies to unknown components. -/
inductive PyNum where
  | pint : ℤ → PyNum
  | pfloat : ℚ → PyNum
deriving DecidableEq, Repr

/-- Python truthiness of a number: zero is falsy. -/
def PyNum.truthy : PyNum → Bool
  | .pint z => z != 0
  | .pfloat q => q != 0

/-- `isinstance(val, int)`. -/
def PyNum.isInstInt : PyNum → Bool
  | .pint _ => true
  | .pfloat _ => false

/-- The underlying integer of an int value (unused junk value for floats:
the source short-circuits on the isinstance check before comparing). -/
def PyNum.toZ : PyNum → ℤ
  | .pint z => z
  | .pfloat _ => 0

/-- One component of the list comprehension inside __is_valid_shape:
`(not isinstance(val, int) or val < 1)`. -/
def componentInvalid (v : PyNum) : Bool :=
  !v.isInstInt || decide (v.toZ < 1)

/-- plate.py PlateCollection.__is_valid_shape:
`all(shape) and not any([(not isinstance(val, int) or val < 1) for val in shape])`. -/
def is_valid_shape (s : PyNum × PyNum) : Bool :=
  (s.1.truthy && s.2.truthy) && !(componentInvalid s.1 || componentInvalid s.2)

/-- plate.py PlateCollection.coordinate_to_index: validates the coordinate with
__is_valid_shape, then returns `prod(coordinate)` (the numpy product of the
two components). Note: it takes no shape argument. -/
def coordinate_to_index (coordinate : PyNum × PyNum) : Except PyErr ℤ :=
  if !is_valid_shape coordinate then
    .error (.valueError "The supplied coordinates are not valid. All values must be non-negative integers")
  else
    .ok (coordinate.1.toZ * coordinate.2.toZ)

/-- plate.py PlateCollection.index_to_coordinate:
guards `index < 1 or not __is_valid_shape(shape)`, computes
`row = ((index - 1) // shape_col) + 1` and `col = ((index - 1) % shape_col) + 1`
(Python floor division and modulo, i.e. Int.fdiv and Int.fmod), and raises
IndexError when `row > shape_row or col > shape_col`. -/
def index_to_coordinate (index : ℤ) (shape : PyNum × PyNum) : Except PyErr (ℤ × ℤ) :=
  if index < 1 || !is_valid_shape shape then
    .error (.valueError "The supplied index or shape is not valid. All values must be non-negative integers")
  else
    let shape_row := shape.1.toZ
    let shape_col := shape.2.toZ
    let row := (index - 1).fdiv shape_col + 1
    let col := (index - 1).fmod shape_col + 1
    if row > shape_row || col > shape_col then
      .error (.indexError "Index number is greater than the supplied shape size")
    else
      .ok (row, col)

/-- The round trip of the two lattice functions, as the spec composes them:
to_coordinate(to_index(c), s). -/
def lattice_round_trip (c : PyNum × PyNum) (s : PyNum × PyNum) : Except PyErr (ℤ × ℤ) := do
  let i ← coordinate_to_index c
  index_to_coordinate i s

/-- scanlag colony.py Colony.Timepoint: one measurement record.
The numeric fields (datetimes included, measured as time values) are embedded
as exact rationals. -/
structure Timepoint where
  date_time : ℚ
  area : ℚ
  center : ℚ × ℚ
  diameter : ℚ
  perimeter : ℚ
deriving DecidableEq, Repr

/-- scanlag colony.py Colony. `timepointsRaw` is the private __timepoints dict:
a mapping from timestamp to Timepoint kept in insertion order (Python dicts
preserve insertion order), embedded as an association list where assignment of
a fresh key appends at the end. -/
structure Colony where
  id : ℤ
  timepointsRaw : List (ℚ × Timepoint)
deriving DecidableEq, Repr

/-- The message of the ValueError raised by the Colony.timepoints property
getter on an empty colony (the EmptyColonyError of the spec taxonomy). -/
def emptyColonyMsg : String := "No time points are stored for this colony"

/-- scanlag colony.py, the Colony.timepoints property getter:
returns the private dict when it is non-empty, otherwise raises ValueError.
Every metric method evaluates this property first. -/
def Colony.timepoints (c : Colony) : Except PyErr (List (ℚ × Timepoint)) :=
  if c.timepointsRaw.length > 0 then .ok c.timepointsRaw
  else .error (.valueError emptyColonyMsg)

/-- scanlag colony.py Colony.append_timepoint: when the timestamp is not yet a
key of the private dict, the record is inserted (at the end, per dict
semantics); otherwise a ValueError is raised (the DuplicateTimepointError of
the spec taxonomy) and the object is left untouched. The returned pair is the
object after the call together with the exception, if one was raised. -/
def Colony.append_timepoint (c : Colony) (time_point : ℚ) (timepointdata : Timepoint) :
    Colony × Option PyErr :=
  if (c.timepointsRaw.lookup time_point).isSome then
    (c, some (.valueError "This time point already exists"))
  else
    ({ c with timepointsRaw := c.timepointsRaw ++ [(time_point, timepointdata)] }, none)

/-- scanlag colony.py Colony.doubling_time. The first statement is
`x_pts = list(self.timepoints, key=attrgetter(...))`: Python first evaluates
the argument self.timepoints (the property getter, which raises ValueError on
an empty colony), then calls the list builtin with a key keyword argument,
which the list builtin rejects with a TypeError. The comprehension over
`range(len(x_pts) - window)` on the following lines is never reached. -/
def Colony.doubling_time (c : Colony) : Except PyErr (List ℝ) := do
  let _ ← c.timepoints
  .error (.typeError "list() takes no keyword arguments")

/-- scanlag colony.py Colony.get_areas:
`list(self.timepoints, key=attrgetter(...))` evaluates the timepoints property
(ValueError on an empty colony) and then fails with a TypeError because the
list builtin takes no keyword arguments. -/
def Colony.get_areas (c : Colony) : Except PyErr (List ℚ) := do
  let _ ← c.timepoints
  .error (.typeError "list() takes no keyword arguments")

/-- scanlag colony.py Colony.center:
`sum(self.timepoints, key=attrgetter(...))` evaluates the timepoints property
(ValueError on an empty colony) and then fails with a TypeError because the
sum builtin takes no keyword arguments. -/
def Colony.center (c : Colony) : Except PyErr (ℚ × ℚ) := do
  let _ ← c.timepoints
  .error (.typeError "sum() takes no keyword arguments")

/-- scanlag colony.py Colony.time_of_appearance:
`min(self.timepoints, key=attrgetter(...))` evaluates the timepoints property
(ValueError on an empty colony); the min builtin then iterates the keys of the
dict, which are datetime values (timepoints_from_image stores records under
timepoint_data.date_time), and applies attrgetter for the attribute date_time
to each key, which raises an AttributeError since datetimes carry no such
attribute. -/
def Colony.time_of_appearance (c : Colony) : Except PyErr ℚ := do
  let _ ← c.timepoints
  .error (.attributeError "datetime has no attribute date_time")

/-- Modelled from the spec: growth_rate is not defined in
src/scanlag/colony.py (only a caller of the later Colony class references it).
Per the spec it is a derived-metric query, so it must evaluate the timepoints
accessor first and fail with EmptyColonyError on an empty colony, and it
summarizes the overall expansion ratio of the time-ordered areas
(final area over first area). -/
def Colony.growth_rate (c : Colony) : Except PyErr ℚ := do
  let tps ← c.timepoints
  let sorted := tps.mergeSort (fun a b => a.1 ≤ b.1)
  match sorted with
  | [] => .error (.valueError emptyColonyMsg)
  | a :: rest => .ok (((a :: rest).getLast (by simp)).2.area / a.2.area)

/-- Python float division: raises ZeroDivisionError on a zero divisor. -/
noncomputable def pyDivR (a b : ℝ) : Except PyErr ℝ :=
  if b = 0 then .error .zeroDivisionError else .ok (a / b)

/-- Python math.log: raises ValueError (math domain error) outside the
positive reals. -/
noncomputable def pyLog (x : ℝ) : Except PyErr ℝ :=
  if x ≤ 0 then .error (.valueError "math domain error") else .ok (Real.log x)

/-- Python list indexing with a non-negative index:
raises IndexError when out of range. -/
def pyIdx {α : Type} (l : List α) (i : ℕ) : Except PyErr α :=
  match l.get? i with
  | some a => .ok a
  | none => .error (.indexError "list index out of range")

/-- scanlag colony.py Colony.__circularity:
`(4 * pi * area) / (perimeter * perimeter)`, an unguarded float division. -/
noncomputable def circularity (area perimeter : ℝ) : Except PyErr ℝ :=
  pyDivR (4 * Real.pi * area) (perimeter * perimeter)

/-- scanlag colony.py Colony.__local_doubling_time:
reads x1, y1, x2, y2 from the two parallel lists and returns
`(x2 - x1) * log(2) / log(y2 / y1)`, with unguarded divisions. -/
noncomputable def local_doubling_time (index : ℕ) (x_pts y_pts : List ℝ)
    (window : ℕ) : Except PyErr ℝ := do
  let x1 ← pyIdx x_pts index
  let y1 ← pyIdx y_pts index
  let x2 ← pyIdx x_pts (index + window)
  let y2 ← pyIdx y_pts (index + window)
  let r ← pyDivR y2 y1
  let l ← pyLog r
  pyDivR ((x2 - x1) * Real.log 2) l

/-- Modelled from the spec: the Colony interface consumed by the filter
pipeline in colonyscanalyser.py main (the colony module of that era is not
under src/, only this caller): a list of stored timepoint timestamps whose
length is the observation count, the growth_rate scalar, and timepoint_first,
the record at time_of_appearance, of which only the area is read. -/
structure FilterColony where
  timepoints : List ℚ
  growth_rate : ℚ
  first_area : ℚ
deriving DecidableEq, Repr

/-- colonyscanalyser.py main, the three successive filters over the items of
the plate colony dict (pairs of label and colony):
keep `len(timepoints) > len(time_points) * 0.2`, then keep `growth_rate > 1`,
then keep `timepoint_first.area < 50`. The float literal 0.2 is embedded as
the exact rational one fifth. -/
def colony_filters (total_frames : ℕ) (cs : List (ℤ × FilterColony)) :
    List (ℤ × FilterColony) :=
  let f1 := cs.filter (fun e : ℤ × FilterColony =>
    decide ((e.2.timepoints.length : ℚ) > (total_frames : ℚ) * (1/5)))
  let f2 := f1.filter (fun e : ℤ × FilterColony => decide (e.2.growth_rate > 1))
  f2.filter (fun e : ℤ × FilterColony => decide (e.2.first_area < 50))

/-- A labelled region as handed to scanlag colony.py timepoints_from_image by
skimage regionprops: the label and the measured properties read by the code. -/
structure Region where
  label : ℤ
  area : ℚ
  centroid : ℚ × ℚ
  equivalent_diameter : ℚ
  perimeter : ℚ
deriving DecidableEq, Repr

/-- The Python object store for timepoints_from_image: dict objects (label to
colony reference association lists, in insertion order) and Colony objects
live in heaps addressed by references, so that aliasing and in-place mutation
are explicit. Fresh references are drawn from the counters. -/
structure PyState where
  dicts : List (ℕ × List (ℤ × ℕ))
  colonies : List (ℕ × Colony)
  nextDict : ℕ
  nextColony : ℕ
deriving DecidableEq, Repr

/-- In-place update of the object bound to an existing reference. -/
def setRef {α : Type} (m : List (ℕ × α)) (k : ℕ) (v : α) : List (ℕ × α) :=
  m.map (fun p => if p.1 = k then (k, v) else p)

/-- The call `colonies[rp.label].append_timepoint(timepoint_data.date_time,
timepoint_data)` on the colony object bound to reference cref: the object is
mutated in place in the colony heap, or the ValueError of append_timepoint
propagates. -/
def ingest_append (cref : ℕ) (tp : Timepoint) (s : PyState) : Except PyErr PyState :=
  match s.colonies.lookup cref with
  | none => .error .keyError
  | some cobj =>
    match cobj.append_timepoint tp.date_time tp with
    | (cobj2, none) => .ok { s with colonies := setRef s.colonies cref cobj2 }
    | (_, some e) => .error e

/-- One iteration of the loop in timepoints_from_image for region rp, acting
on the dict object `dref` (the copy named colonies in the source):
build the Timepoint from the region properties and the timestamp; if rp.label
is not a key of the dict, allocate `Colony(rp.label)` and assign it under
rp.label (a fresh key, appended at the end of the dict); then call
append_timepoint on the colony object bound under rp.label. -/
def ingest_region (dref : ℕ) (time_point : ℚ) (rp : Region) (s : PyState) :
    Except PyErr PyState :=
  match s.dicts.lookup dref with
  | none => .error .keyError
  | some dv =>
    let timepoint_data : Timepoint :=
      { date_time := time_point, area := rp.area, center := rp.centroid,
        diameter := rp.equivalent_diameter, perimeter := rp.perimeter }
    match dv.lookup rp.label with
    | some cref => ingest_append cref timepoint_data s
    | none =>
      let cref := s.nextColony
      ingest_append cref timepoint_data
        { dicts := setRef s.dicts dref (dv ++ [(rp.label, cref)]),
          colonies := (cref, { id := rp.label, timepointsRaw := [] }) :: s.colonies,
          nextDict := s.nextDict, nextColony := s.nextColony + 1 }

/-- The loop of timepoints_from_image over the regions of the image. -/
def ingest_regions (dref : ℕ) (time_point : ℚ) (rs : List Region) (s : PyState) :
    Except PyErr PyState :=
  match rs with
  | [] => .ok s
  | rp :: rest => do
    let s1 ← ingest_region dref time_point rp s
    ingest_regions dref time_point rest s1

/-- scanlag colony.py timepoints_from_image:
`colonies = colonies_dict.copy()` allocates a new dict object with the same
bindings (a shallow copy: colony references are shared), the loop ingests
every region into the copy, and the copy is returned. The caller passes the
reference of its own dict object; the returned reference is the fresh copy. -/
def timepoints_from_image (colonies_dict : ℕ) (regions : List Region)
    (time_point : ℚ) (s : PyState) : Except PyErr (PyState × ℕ) :=
  match s.dicts.lookup colonies_dict with
  | none => .error .keyError
  | some dv =>
    let dref2 := s.nextDict
    let s1 : PyState :=
      { s with dicts := (dref2, dv) :: s.dicts, nextDict := s.nextDict + 1 }
    do
      let s2 ← ingest_regions dref2 time_point regions s1
      .ok (s2, dref2)

/-- The dict references of a state are below the allocation counter, so the
next allocated dict reference is fresh. -/
def DictRefsBelow (s : PyState) : Prop := ∀ p ∈ s.dicts, p.1 < s.nextDict

/-- The colony references of a state are below the allocation counter, so the
next allocated colony reference is fresh. -/
def ColonyRefsBelow (s : PyState) : Prop := ∀ p ∈ s.colonies, p.1 < s.nextColony

/-- Scenario colony A of the filter pipeline: 5 observation frames,
growth rate 2, first area 10. -/
def colonyA : FilterColony :=
  { timepoints := (List.range 5).map (fun n : ℕ => (n : ℚ)), growth_rate := 2, first_area := 10 }

/-- Scenario colony B of the filter pipeline: 30 observation frames,
growth rate one half, first area 10. -/
def colonyB : FilterColony :=
  { timepoints := (List.range 30).map (fun n : ℕ => (n : ℚ)), growth_rate := 1/2, first_area := 10 }

/-- Scenario colony C of the filter pipeline: 30 observation frames,
growth rate 3, first area 20. -/
def colonyC : FilterColony :=
  { timepoints := (List.range 30).map (fun n : ℕ => (n : ℚ)), growth_rate := 3, first_area := 20 }

/-- A sample measurement record at time 0. -/
def tpZero : Timepoint :=
  { date_time := 0, area := 3, center := (0, 0), diameter := 1, perimeter := 2 }

/-- A different sample measurement record at time 0. -/
def tpOther : Timepoint :=
  { date_time := 0, area := 8, center := (1, 1), diameter := 3, perimeter := 6 }

/-- A colony with eleven stored records at timestamps 0 to 10 and areas
doubling each step. -/
def colonyElevenPts : Colony :=
  { id := 1,
    timepointsRaw := (List.range 11).map (fun n : ℕ =>
      ((n : ℚ), { date_time := (n : ℚ), area := ((2 : ℚ) ^ n), center := (0, 0),
                  diameter := 1, perimeter := 1 })) }

/-- A colony with records at timestamps 1 and 2 with areas 10 and 20. -/
def colonyTwoPts : Colony :=
  { id := 1,
    timepointsRaw :=
      [(1, { date_time := 1, area := 10, center := (0, 0), diameter := 1, perimeter := 2 }),
       (2, { date_time := 2, area := 20, center := (0, 0), diameter := 1, perimeter := 2 })] }

/-- Elapsed times 0 to 10 as a list of reals. -/
noncomputable def elapsedXs : List ℝ := [0, 1, 2, 3, 4, 5, 6, 7, 8, 9, 10]

/-- Eleven equal area measurements, a window of zero growth. -/
noncomputable def constantYs : List ℝ := [3, 3, 3, 3, 3, 3, 3, 3, 3, 3, 3]

/-- The state before a call to timepoints_from_image in the witness run:
one empty dict object and no colony objects. -/
def stateBefore : PyState :=
  { dicts := [(0, [])], colonies := [], nextDict := 1, nextColony := 0 }

/-- The state after the witness call: the shallow copy of the caller dict was
allocated under the fresh reference 1 and no region was ingested. -/
def stateAfter : PyState :=
  { dicts := [(1, []), (0, [])], colonies := [], nextDict := 2, nextColony := 0 }

/-- C1: evaluation of the code at coordinate (2, 1) under shape (2, 3).
coordinate_to_index returns the product 2 of the components (it ignores any
shape), and index_to_coordinate maps the index 2 under shape (2, 3) back to
(1, 2), so the round trip lands on (1, 2) instead of the original (2, 1):
the two directions are not inverses as the claim states. -/
theorem C1_round_trip_fails_on_code :
    lattice_round_trip (.pint 2, .pint 1) (.pint 2, .pint 3) = .ok (1, 2) ∧
      ((1, 2) : ℤ × ℤ) ≠ (2, 1) :=
  ⟨rfl, by decide⟩

/-- C2: evaluation of the code at coordinate (2, 1), which lies componentwise
within the shape (2, 3). coordinate_to_index returns the product 2 of the two
components, whereas the row-major 1-based linear index demanded by the claim is
(2 - 1) * 3 + 1 = 4. -/
theorem C2_to_index_is_product_not_row_major :
    coordinate_to_index (.pint 2, .pint 1) = .ok 2 ∧ (2 : ℤ) ≠ (2 - 1) * 3 + 1 :=
  ⟨rfl, by decide⟩

/-- C9, counterexample: the coordinate (2, 1) exceeds the shape (1, 1)
componentwise (its row 2 is greater than the single shape row), yet
coordinate_to_index succeeds and returns 2 - the function takes no shape
argument and performs no bounds check, refuting the claim as stated. -/
theorem C9_no_bounds_check_on_to_index :
    ((2 : ℤ) > 1 ∧ (1 : ℤ) ≤ 1) ∧ coordinate_to_index (.pint 2, .pint 1) = .ok 2 :=
  ⟨by decide, rfl⟩

/-- C9, amended: coordinate_to_index fails with the ValueError of
__is_valid_shape whenever a component of its coordinate is a non-integer or an
integer below 1 (it checks no shape), and index_to_coordinate fails with
IndexError whenever, for a valid index and shape, the computed row
((index - 1) // shape_columns) + 1 exceeds shape_rows. -/
theorem C9_validation_behaviour :
    (∀ c : PyNum × PyNum,
      componentInvalid c.1 = true ∨ componentInvalid c.2 = true →
      coordinate_to_index c =
        .error (.valueError "The supplied coordinates are not valid. All values must be non-negative integers")) ∧
    (∀ (index : ℤ) (shape : PyNum × PyNum),
      1 ≤ index → is_valid_shape shape = true →
      (index - 1).fdiv shape.2.toZ + 1 > shape.1.toZ →
      index_to_coordinate index shape =
        .error (.indexError "Index number is greater than the supplied shape size")) := by
  constructor
  · intro c h
    have hv : is_valid_shape c = false := by
      unfold is_valid_shape
      rcases h with h | h <;> simp [h]
    unfold coordinate_to_index
    rw [hv]
    rfl
  · intro index shape h1 h2 h3
    unfold index_to_coordinate
    have hlt : ¬ index < 1 := not_lt.mpr h1
    rw [if_neg (by simp [hlt, h2])]
    rw [if_pos (by simp [h3])]

/-- C9, witness: coordinate_to_index rejects the coordinate (0, 1) with a
non-positive component, and index_to_coordinate rejects index 3 under shape
(1, 2), whose computed row 2 exceeds the single shape row. -/
theorem C9_validation_witness :
    coordinate_to_index (.pint 0, .pint 1) =
      .error (.valueError "The supplied coordinates are not valid. All values must be non-negative integers") ∧
    index_to_coordinate 3 (.pint 1, .pint 2) =
      .error (.indexError "Index number is greater than the supplied shape size") :=
  ⟨C9_validation_behaviour.1 (.pint 0, .pint 1) (Or.inl (by decide)),
   C9_validation_behaviour.2 3 (.pint 1, .pint 2) (by decide) (by decide) (by decide)⟩

/-- C4: evaluation of the code on a colony with eleven stored records
(timestamps 0 to 10, areas doubling each step). The claim demands exactly one
local doubling-time value (n = window + 1 with window = 10); the code instead
raises a TypeError from its first statement, because the list builtin rejects
the key keyword argument, for every non-empty colony. -/
theorem C4_doubling_time_raises_on_code :
    Colony.doubling_time colonyElevenPts =
      .error (.typeError "list() takes no keyword arguments") := by
  rfl

/-- C6: appending a record at a timestamp already stored fails with the
ValueError for a duplicate time point (DuplicateTimepointError) and returns
from the call with the colony object untouched: the record stored at that
timestamp, and every other entry, are unchanged. -/
theorem C6_append_duplicate_rejected :
    ∀ (c : Colony) (t : ℚ) (d d0 : Timepoint),
      c.timepointsRaw.lookup t = some d0 →
      c.append_timepoint t d = (c, some (.valueError "This time point already exists")) ∧
      (c.append_timepoint t d).1.timepointsRaw.lookup t = some d0 := by
  intro c t d d0 h
  have hs : (c.timepointsRaw.lookup t).isSome = true := by rw [h]; rfl
  constructor
  · unfold Colony.append_timepoint
    rw [if_pos hs]
  · unfold Colony.append_timepoint
    rw [if_pos hs]
    exact h

/-- C6, witness: appending a second record at timestamp 0 to a colony that
already stores tpZero at 0 raises the duplicate ValueError and leaves the
stored record in place. -/
theorem C6_append_duplicate_witness :
    Colony.append_timepoint { id := 1, timepointsRaw := [(0, tpZero)] } 0 tpOther =
      ({ id := 1, timepointsRaw := [(0, tpZero)] },
        some (.valueError "This time point already exists")) ∧
    (Colony.append_timepoint { id := 1, timepointsRaw := [(0, tpZero)] } 0
        tpOther).1.timepointsRaw.lookup 0 = some tpZero :=
  C6_append_duplicate_rejected { id := 1, timepointsRaw := [(0, tpZero)] } 0 tpOther tpZero
    (by decide)

/-- C7: evaluation of the code on a colony with records at timestamps 1 and 2
and areas 10 and 20. The claim demands the area sequence [10, 20] in ascending
timestamp order; get_areas instead raises a TypeError, because the list builtin
rejects the key keyword argument, for every non-empty colony (and even without
that keyword it would list the timestamp keys of the dict, not the areas). -/
theorem C7_get_areas_raises_on_code :
    Colony.get_areas colonyTwoPts =
      .error (.typeError "list() takes no keyword arguments") := by
  rfl

/-- C8: every derived-metric query on a colony with zero stored records fails
with the ValueError of the timepoints property getter (EmptyColonyError):
time_of_appearance, center, growth_rate (modelled from the spec, absent from
this source file), doubling_time and get_areas all evaluate the property
first, and it raises on an empty colony. -/
theorem C8_empty_colony_queries_fail :
    ∀ c : Colony, c.timepointsRaw = [] →
      c.time_of_appearance = .error (.valueError emptyColonyMsg) ∧
      c.center = .error (.valueError emptyColonyMsg) ∧
      c.growth_rate = .error (.valueError emptyColonyMsg) ∧
      c.doubling_time = .error (.valueError emptyColonyMsg) ∧
      c.get_areas = .error (.valueError emptyColonyMsg) := by
  intro c h
  obtain ⟨i, st⟩ := c
  cases h
  exact ⟨rfl, rfl, rfl, rfl, rfl⟩

/-- C8, witness: the five queries on the concrete empty colony with id 1 all
fail with the empty-colony ValueError. -/
theorem C8_empty_colony_witness :
    Colony.time_of_appearance { id := 1, timepointsRaw := [] } =
        .error (.valueError emptyColonyMsg) ∧
      Colony.center { id := 1, timepointsRaw := [] } =
        .error (.valueError emptyColonyMsg) ∧
      Colony.growth_rate { id := 1, timepointsRaw := [] } =
        .error (.valueError emptyColonyMsg) ∧
      Colony.doubling_time { id := 1, timepointsRaw := [] } =
        .error (.valueError emptyColonyMsg) ∧
      Colony.get_areas { id := 1, timepointsRaw := [] } =
        .error (.valueError emptyColonyMsg) :=
  C8_empty_colony_queries_fail { id := 1, timepointsRaw := [] } rfl

/-- C3: the filter pipeline retains exactly the colonies satisfying all three
predicates - observation count above a fifth of the frame count, growth rate
above 1, first area below 50 - and on the scenario plate of 100 frames with
candidates A (5 frames, growth rate 2, first area 10), B (30 frames, growth
rate one half) and C (30 frames, growth rate 3, first area 20) the surviving
set is exactly C. -/
theorem C3_filter_pipeline_exact :
    (∀ (total_frames : ℕ) (cs : List (ℤ × FilterColony)) (e : ℤ × FilterColony),
      e ∈ colony_filters total_frames cs ↔
        e ∈ cs ∧ (e.2.timepoints.length : ℚ) > (total_frames : ℚ) * (1/5) ∧
          e.2.growth_rate > 1 ∧ e.2.first_area < 50) ∧
    colony_filters 100 [(1, colonyA), (2, colonyB), (3, colonyC)] = [(3, colonyC)] := by
  constructor
  · intro total_frames cs e
    simp only [colony_filters, List.mem_filter, decide_eq_true_eq]
    tauto
  · norm_num [colony_filters, colonyA, colonyB, colonyC, List.filter_cons]

/-- C3, witness: the retained pair (3, C) of the scenario satisfies the
membership equivalence of the pipeline. -/
theorem C3_filter_pipeline_witness :
    (3, colonyC) ∈ colony_filters 100 [(1, colonyA), (2, colonyB), (3, colonyC)] :=
  (C3_filter_pipeline_exact.1 100 [(1, colonyA), (2, colonyB), (3, colonyC)]
    (3, colonyC)).mpr (by norm_num [colonyC])

/-- C5: evaluation of the code at the degenerate inputs of the claim. The
circularity of a record with area 10 and perimeter 0 divides by zero and
raises ZeroDivisionError, and the local doubling time over the window from
index 0 to index 10 of eleven samples with constant area 3 computes
log(3 / 3) = 0 as its divisor and raises ZeroDivisionError: neither failure is
the InvalidMeasurementError the claim demands (no such guard exists in the
source, which the spec itself flags as a latent divide-by-zero). -/
theorem C5_divide_by_zero_on_code :
    circularity 10 0 = .error .zeroDivisionError ∧
    local_doubling_time 0 elapsedXs constantYs 10 = .error .zeroDivisionError := by
  constructor
  · simp [circularity, pyDivR]
  · have h3 : (3 : ℝ) ≠ 0 := by norm_num
    have h10 : ¬ (1 : ℝ) ≤ 0 := by norm_num
    simp [local_doubling_time, elapsedXs, constantYs, pyIdx, pyDivR, pyLog,
      Bind.bind, Except.bind, h3, h10, div_self h3, Real.log_one]

theorem lookup_cons_self {κ α : Type} [DecidableEq κ] (k : κ) (v : α)
    (m : List (κ × α)) : ((k, v) :: m).lookup k = some v := by
  simp [List.lookup]

theorem lookup_cons_ne {κ α : Type} [DecidableEq κ] {q k : κ} (v : α)
    (m : List (κ × α)) (h : q ≠ k) : ((k, v) :: m).lookup q = m.lookup q := by
  have hb : (q == k) = false := beq_eq_false_iff_ne.mpr h
  simp [List.lookup, hb]

theorem exists_mem_of_lookup {κ α : Type} [DecidableEq κ] {m : List (κ × α)}
    {k : κ} {v : α} (h : m.lookup k = some v) : ∃ p ∈ m, p.1 = k := by
  induction m with
  | nil => simp [List.lookup] at h
  | cons p rest ih =>
    obtain ⟨a, b⟩ := p
    by_cases hk : k = a
    · exact ⟨(a, b), List.mem_cons_self _ _, hk.symm⟩
    · rw [lookup_cons_ne _ _ hk] at h
      obtain ⟨q, hq, hqk⟩ := ih h
      exact ⟨q, List.mem_cons_of_mem _ hq, hqk⟩

theorem lookup_append_some {κ α : Type} [DecidableEq κ] {m : List (κ × α)}
    (m2 : List (κ × α)) {k : κ} {v : α} (h : m.lookup k = some v) :
    (m ++ m2).lookup k = some v := by
  induction m with
  | nil => simp [List.lookup] at h
  | cons p rest ih =>
    obtain ⟨a, b⟩ := p
    by_cases hk : k = a
    · subst hk
      rw [lookup_cons_self] at h
      rw [List.cons_append, lookup_cons_self]
      exact h
    · rw [lookup_cons_ne _ _ hk] at h
      rw [List.cons_append, lookup_cons_ne _ _ hk]
      exact ih h

theorem setRef_lookup_ne {α : Type} (m : List (ℕ × α)) (k : ℕ) (v : α) {q : ℕ}
    (h : q ≠ k) : (setRef m k v).lookup q = m.lookup q := by
  induction m with
  | nil => rfl
  | cons p rest ih =>
    obtain ⟨a, b⟩ := p
    show (((if a = k then (k, v) else (a, b))) :: setRef rest k v).lookup q = _
    by_cases ha : a = k
    · subst ha
      rw [if_pos rfl, lookup_cons_ne _ _ h, lookup_cons_ne _ _ h]
      exact ih
    · rw [if_neg ha]
      by_cases hq : q = a
      · subst hq
        rw [lookup_cons_self, lookup_cons_self]
      · rw [lookup_cons_ne _ _ hq, lookup_cons_ne _ _ hq]
        exact ih

theorem setRef_lookup_self {α : Type} {m : List (ℕ × α)} (k : ℕ) (v : α) {w : α}
    (h : m.lookup k = some w) : (setRef m k v).lookup k = some v := by
  induction m with
  | nil => simp [List.lookup] at h
  | cons p rest ih =>
    obtain ⟨a, b⟩ := p
    show (((if a = k then (k, v) else (a, b))) :: setRef rest k v).lookup k = _
    by_cases ha : a = k
    · rw [if_pos ha, lookup_cons_self]
    · rw [if_neg ha, lookup_cons_ne _ _ (fun hh => ha hh.symm)]
      rw [lookup_cons_ne _ _ (fun hh => ha hh.symm)] at h
      exact ih h

theorem setRef_mem {α : Type} {m : List (ℕ × α)} {k : ℕ} {v : α} {p : ℕ × α}
    (h : p ∈ setRef m k v) : ∃ q ∈ m, p.1 = q.1 := by
  unfold setRef at h
  obtain ⟨q, hq, hmap⟩ := List.mem_map.mp h
  refine ⟨q, hq, ?_⟩
  by_cases hk : q.1 = k
  · rw [← hmap, if_pos hk, hk]
  · rw [← hmap, if_neg hk]

theorem ingest_append_frame {cref : ℕ} {tp : Timepoint} {s s' : PyState}
    (h : ingest_append cref tp s = .ok s') :
    s'.dicts = s.dicts ∧ s'.nextDict = s.nextDict ∧ s'.nextColony = s.nextColony ∧
    (∀ cr c0, s.colonies.lookup cr = some c0 →
      ∃ ext, s'.colonies.lookup cr =
        some { id := c0.id, timepointsRaw := c0.timepointsRaw ++ ext }) ∧
    (∀ p ∈ s'.colonies, ∃ q ∈ s.colonies, p.1 = q.1) := by
  unfold ingest_append at h
  cases hco : s.colonies.lookup cref with
  | none => simp only [hco] at h; cases h
  | some cobj =>
    simp only [hco] at h
    unfold Colony.append_timepoint at h
    by_cases hdup : (cobj.timepointsRaw.lookup tp.date_time).isSome
    · rw [if_pos hdup] at h; cases h
    · rw [if_neg hdup] at h
      cases h
      refine ⟨rfl, rfl, rfl, ?_, ?_⟩
      · intro cr c0 hc0
        by_cases hcr : cr = cref
        · subst hcr
          rw [hco] at hc0
          obtain rfl : cobj = c0 := by injection hc0
          exact ⟨[(tp.date_time, tp)], setRef_lookup_self _ _ hco⟩
        · refine ⟨[], ?_⟩
          rw [setRef_lookup_ne _ _ _ hcr, hc0, List.append_nil]
      · intro p hp; exact setRef_mem hp

theorem ingest_region_frame {dref : ℕ} {t : ℚ} {rp : Region} {s s' : PyState}
    (hWFc : ColonyRefsBelow s)
    (h : ingest_region dref t rp s = .ok s') :
    s'.nextDict = s.nextDict ∧
    (∀ q, q ≠ dref → s'.dicts.lookup q = s.dicts.lookup q) ∧
    (∀ dv, s.dicts.lookup dref = some dv →
      ∃ tl, s'.dicts.lookup dref = some (dv ++ tl)) ∧
    (∀ cr c0, s.colonies.lookup cr = some c0 →
      ∃ ext, s'.colonies.lookup cr =
        some { id := c0.id, timepointsRaw := c0.timepointsRaw ++ ext }) ∧
    ColonyRefsBelow s' ∧
    (DictRefsBelow s → DictRefsBelow s') := by
  unfold ingest_region at h
  cases hdv : s.dicts.lookup dref with
  | none => simp only [hdv] at h; cases h
  | some dv =>
    simp only [hdv] at h
    cases hl : dv.lookup rp.label with
    | some cref =>
      simp only [hl] at h
      obtain ⟨hd, hnd, hnc, hcol, hkeys⟩ := ingest_append_frame h
      refine ⟨hnd, ?_, ?_, hcol, ?_, ?_⟩
      · intro q _; rw [hd]
      · intro dv0 hdv0
        obtain rfl : dv = dv0 := by injection hdv0
        exact ⟨[], by rw [hd, hdv, List.append_nil]⟩
      · intro p hp
        obtain ⟨q, hq, hpq⟩ := hkeys p hp
        rw [hnc, hpq]
        exact hWFc q hq
      · intro hD p hp
        rw [hd] at hp
        rw [hnd]
        exact hD p hp
    | none =>
      simp only [hl] at h
      obtain ⟨hd, hnd, hnc, hcol, hkeys⟩ := ingest_append_frame h
      refine ⟨hnd, ?_, ?_, ?_, ?_, ?_⟩
      · intro q hq
        rw [hd]
        exact setRef_lookup_ne _ _ _ hq
      · intro dv0 hdv0
        obtain rfl : dv = dv0 := by injection hdv0
        exact ⟨[(rp.label, s.nextColony)], by rw [hd]; exact setRef_lookup_self _ _ hdv⟩
      · intro cr c0 hc0
        have hcrlt : cr < s.nextColony := by
          obtain ⟨p, hp, hpk⟩ := exists_mem_of_lookup hc0
          exact hpk ▸ hWFc p hp
        have hcr : cr ≠ s.nextColony := Nat.ne_of_lt hcrlt
        exact hcol cr c0 (by rw [lookup_cons_ne _ _ hcr]; exact hc0)
      · intro p hp
        obtain ⟨q, hq, hpq⟩ := hkeys p hp
        rw [hnc, hpq]
        rcases List.mem_cons.mp hq with hq1 | hq2
        · rw [hq1]
          exact Nat.lt_succ_self _
        · exact Nat.lt_succ_of_lt (hWFc q hq2)
      · intro hD p hp
        rw [hd] at hp
        obtain ⟨q, hq, hpq⟩ := setRef_mem hp
        rw [hnd, hpq]
        exact hD q hq

theorem ingest_regions_frame {dref : ℕ} {t : ℚ} {rs : List Region} {s s' : PyState}
    (hWFc : ColonyRefsBelow s)
    (h : ingest_regions dref t rs s = .ok s') :
    s'.nextDict = s.nextDict ∧
    (∀ q, q ≠ dref → s'.dicts.lookup q = s.dicts.lookup q) ∧
    (∀ dv, s.dicts.lookup dref = some dv →
      ∃ tl, s'.dicts.lookup dref = some (dv ++ tl)) ∧
    (∀ cr c0, s.colonies.lookup cr = some c0 →
      ∃ ext, s'.colonies.lookup cr =
        some { id := c0.id, timepointsRaw := c0.timepointsRaw ++ ext }) ∧
    ColonyRefsBelow s' ∧
    (DictRefsBelow s → DictRefsBelow s') := by
  induction rs generalizing s with
  | nil =>
    unfold ingest_regions at h
    cases h
    refine ⟨rfl, fun q _ => rfl, fun dv hdv => ⟨[], by rw [hdv, List.append_nil]⟩,
      fun cr c0 hc => ⟨[], by rw [hc, List.append_nil]⟩, hWFc, id⟩
  | cons rp rest ih =>
    unfold ingest_regions at h
    cases h1 : ingest_region dref t rp s with
    | error e => rw [h1] at h; cases h
    | ok s1 =>
      rw [h1] at h
      have h2 : ingest_regions dref t rest s1 = .ok s' := h
      obtain ⟨R1nd, R1q, R1d, R1c, R1wfc, R1wfd⟩ := ingest_region_frame hWFc h1
      obtain ⟨R2nd, R2q, R2d, R2c, R2wfc, R2wfd⟩ := ih R1wfc h2
      refine ⟨R2nd.trans R1nd, ?_, ?_, ?_, R2wfc, fun hD => R2wfd (R1wfd hD)⟩
      · intro q hq
        rw [R2q q hq, R1q q hq]
      · intro dv hdv
        obtain ⟨tl1, h1d⟩ := R1d dv hdv
        obtain ⟨tl2, h2d⟩ := R2d (dv ++ tl1) h1d
        exact ⟨tl1 ++ tl2, by rw [h2d, List.append_assoc]⟩
      · intro cr c0 hc
        obtain ⟨e1, h1c⟩ := R1c cr c0 hc
        obtain ⟨e2, h2c⟩ := R2c cr _ h1c
        exact ⟨e1 ++ e2, by rw [h2c]; simp [List.append_assoc]⟩

/-- C10: timepoints_from_image returns a fresh mapping built from a shallow
copy of the input. For every well-formed state (allocated references lie below
the allocation counters), caller dict object, region list and timestamp on
which the call returns, the caller dict object is bound afterwards to exactly
its original entries (so its key set gains and loses nothing), the returned
reference is a different object whose bindings extend the original ones, every
label of the input keeps its colony reference in the returned mapping (the
Colony objects are shared), and each previously allocated Colony object is
only ever extended in place by appending timepoints. -/
theorem C10_shallow_copy_frame_effect :
    ∀ (s : PyState) (dref : ℕ) (dv : List (ℤ × ℕ)) (rs : List Region) (t : ℚ)
      (s2 : PyState) (r : ℕ),
      DictRefsBelow s → ColonyRefsBelow s →
      s.dicts.lookup dref = some dv →
      timepoints_from_image dref rs t s = .ok (s2, r) →
      r ≠ dref ∧
      s2.dicts.lookup dref = some dv ∧
      (∃ tl, s2.dicts.lookup r = some (dv ++ tl)) ∧
      (∀ l cr, dv.lookup l = some cr →
        ∃ dv2, s2.dicts.lookup r = some dv2 ∧ dv2.lookup l = some cr) ∧
      (∀ cr c0, s.colonies.lookup cr = some c0 →
        ∃ ext, s2.colonies.lookup cr =
          some { id := c0.id, timepointsRaw := c0.timepointsRaw ++ ext }) := by
  intro s dref dv rs t s2 r hWFd hWFc hdv hrun
  unfold timepoints_from_image at hrun
  simp only [hdv] at hrun
  have hdref_lt : dref < s.nextDict := by
    obtain ⟨p, hp, hpk⟩ := exists_mem_of_lookup hdv
    exact hpk ▸ hWFd p hp
  have hne : s.nextDict ≠ dref := Nat.ne_of_gt hdref_lt
  cases hreg : ingest_regions s.nextDict t rs
      { s with dicts := (s.nextDict, dv) :: s.dicts, nextDict := s.nextDict + 1 } with
  | error e => rw [hreg] at hrun; cases hrun
  | ok s2x =>
    rw [hreg] at hrun
    have hpair : (s2x, s.nextDict) = (s2, r) := by
      have hok : Except.ok (ε := PyErr) (s2x, s.nextDict) = Except.ok (s2, r) := hrun
      injection hok
    obtain ⟨rfl, rfl⟩ : s2x = s2 ∧ s.nextDict = r :=
      ⟨congrArg Prod.fst hpair, congrArg Prod.snd hpair⟩
    have hWFc1 : ColonyRefsBelow
        { s with dicts := (s.nextDict, dv) :: s.dicts, nextDict := s.nextDict + 1 } := hWFc
    obtain ⟨Rnd, Rq, Rd, Rc, Rwfc, Rwfd⟩ := ingest_regions_frame hWFc1 hreg
    refine ⟨hne, ?_, ?_, ?_, Rc⟩
    · rw [Rq dref (fun hh => hne hh.symm)]
      show ((s.nextDict, dv) :: s.dicts).lookup dref = some dv
      rw [lookup_cons_ne _ _ (fun hh => hne hh.symm), hdv]
    · exact Rd dv (lookup_cons_self s.nextDict dv s.dicts)
    · intro l cr hl
      obtain ⟨tl, htl⟩ := Rd dv (lookup_cons_self s.nextDict dv s.dicts)
      exact ⟨dv ++ tl, htl, lookup_append_some tl hl⟩

/-- C10, witness: a concrete run on stateBefore (one empty caller dict under
reference 0) with no regions returns the fresh reference 1 and stateAfter,
where the caller object still holds exactly its original (empty) bindings. -/
theorem C10_shallow_copy_witness :
    (1 : ℕ) ≠ 0 ∧
    stateAfter.dicts.lookup 0 = some [] ∧
    (∃ tl, stateAfter.dicts.lookup 1 = some ([] ++ tl)) ∧
    (∀ l cr, ([] : List (ℤ × ℕ)).lookup l = some cr →
      ∃ dv2, stateAfter.dicts.lookup 1 = some dv2 ∧ dv2.lookup l = some cr) ∧
    (∀ cr c0, stateBefore.colonies.lookup cr = some c0 →
      ∃ ext, stateAfter.colonies.lookup cr =
        some { id := c0.id, timepointsRaw := c0.timepointsRaw ++ ext }) :=
  C10_shallow_copy_frame_effect stateBefore 0 [] [] 0 stateAfter 1
    (by intro p hp; simp only [stateBefore, List.mem_singleton] at hp; subst hp; decide)
    (by intro p hp; simp [stateBefore] at hp) rfl rfl

end Scanalyser
